import Mathlib

/-!
Verification of the subroutine compilation engine of `src/pyteal/ast/subroutine.py`:
`SubroutineDefinition`, `SubroutineDeclaration`, `SubroutineCall` and the
calling-convention algorithm `evaluateSubroutine`, shallowly embedded in Lean.

External collaborators of that module (the `Expr` AST base class, `Seq`,
`ScratchVar` / `DynamicScratchVar`, the `TealBlock` IR builder and the
version gate `verifyTealVersion`) are not part of the source tree under
review; they are modelled from the specification's §6 boundary description,
and each such definition is marked `Modelled from the spec`.
-/

namespace PyTeal

/-- The static TEAL types (external `pyteal.types.TealType`):
`uint64`, `bytes`, `anytype` and `none` (an expression producing no value). -/
inductive TealType where
  | uint64
  | bytes
  | anytype
  | none
  deriving DecidableEq

/-- Modelled from the spec (§2, §6): value-producing AST nodes, an external
collaborator consumed by the subroutine engine.  Constructors cover the
expression shapes the engine itself produces or consumes: literals, a scratch
slot's stack-store (`ScratchSlot.store()` with no argument), a slot load
(`ScratchVar.load()`), a slot-index push (`ScratchVar.index()`), an arbitrary
expression of a given static type, and the sequencing combinator `Seq`. -/
inductive Expr where
  | int (n : Nat)
  | byteStr (s : List Nat)
  | slotStore (slotId : Nat)
  | slotLoad (slotId : Nat)
  | slotIndex (slotId : Nat)
  | atom (ty : TealType)
  | seq (es : List Expr)

mutual

/-- Modelled from the spec (§6): `type_of()` of an expression.  A store
produces no value; a sequence has the type of its last component. -/
def Expr.type_of : Expr → TealType
  | Expr.int _ => TealType.uint64
  | Expr.byteStr _ => TealType.bytes
  | Expr.slotStore _ => TealType.none
  | Expr.slotLoad _ => TealType.anytype
  | Expr.slotIndex _ => TealType.uint64
  | Expr.atom ty => ty
  | Expr.seq es => seqTypeOf es

/-- Modelled from the spec (§6): the type of a sequence is its last
component's type (an empty sequence produces no value). -/
def seqTypeOf : List Expr → TealType
  | [] => TealType.none
  | [e] => Expr.type_of e
  | _ :: es => seqTypeOf es

end

/-- The instructions of the stack-based virtual machine that the claims
mention: pushes, scratch store/load, and the subroutine call instruction
(addressed here by the target definition's id; address resolution is the
linker's responsibility and out of scope). -/
inductive Instr where
  | pushInt (n : Nat)
  | pushBytes (s : List Nat)
  | store (slotId : Nat)
  | load (slotId : Nat)
  | callsub (subroutineId : Nat)
  | atomInstr (ty : TealType)
  deriving DecidableEq

mutual

/-- Modelled from the spec (§1, §6): general expression-to-instruction
lowering is an external collaborator; each expression lowers to its ordered
instruction block, and a sequence lowers to the concatenation of its
components' blocks. -/
def lowerExpr : Expr → List Instr
  | Expr.int n => [Instr.pushInt n]
  | Expr.byteStr s => [Instr.pushBytes s]
  | Expr.slotStore n => [Instr.store n]
  | Expr.slotLoad n => [Instr.load n]
  | Expr.slotIndex n => [Instr.pushInt n]
  | Expr.atom ty => [Instr.atomInstr ty]
  | Expr.seq es => lowerSeq es

/-- Modelled from the spec (§6): lowering of a sequence of expressions. -/
def lowerSeq : List Expr → List Instr
  | [] => []
  | e :: es => lowerExpr e ++ lowerSeq es

end

/-- Modelled from the spec (§6): a scratch-variable handle, with a declared
type and the index of its storage slot. -/
structure ScratchVar where
  type : TealType
  slotId : Nat
  deriving DecidableEq

/-- The two Python classes a subroutine parameter may be declared as
(`expected_arg_types` entries in `SubroutineDefinition.__init__`):
the by-value class `Expr` and the by-reference class `ScratchVar`. -/
inductive ArgKind where
  | exprKind
  | scratchKind
  deriving DecidableEq

/-- A raw Python value as handed to `SubroutineDefinition.invoke` or
`SubroutineCall.__init__`: an `Expr` instance, a `ScratchVar` instance, or
any other Python object. -/
inductive PyVal where
  | exprV (e : Expr)
  | scratchV (v : ScratchVar)
  | otherV

/-- The static type the call-site validation reads off an argument
(`arg.type_of()` for an `Expr`, `arg.type` for a `ScratchVar`); other
Python objects have none. -/
def PyVal.staticType : PyVal → Option TealType
  | PyVal.exprV e => some e.type_of
  | PyVal.scratchV v => some v.type
  | PyVal.otherV => Option.none

/-- The compile-time errors (`TealInputError` / `TypeError` / `IndexError`)
the module can raise, carrying the data its messages interpolate. -/
inductive TealErr where
  | notCallable
  | inputTypesLengthMismatch (provided detected : Nat)
  | badReturnAnn
  | badParamKind (name : String)
  | paramDefault (name : String)
  | annNotClass (name : String)
  | annDisallowed (name : String)
  | typeOfOnClass (name : String)
  | arityMismatch (expected got : Nat)
  | kindMismatch (index : Nat)
  | indexError (index : Nat)
  | badArgKind (index : Nat)
  | noneTypeArg (index : Nat)
  | bodyNotExpr
  | versionTooLow (minVersion version : Nat)
  deriving DecidableEq

/-- What `evaluateSubroutine` passes to the host-authored implementation for
one parameter (`loadedArgs`): for a by-value parameter the load expression
`argVar.load()`, for a by-reference parameter the `DynamicScratchVar` handle
itself (identified by its own slot). -/
inductive LoadedArg where
  | valueExpr (e : Expr)
  | refHandle (slotId : Nat)

/-- `inspect.Parameter.kind` of a Python parameter. -/
inductive PyParamKind where
  | positionalOnly
  | positionalOrKeyword
  | varPositional
  | keywordOnly
  | varKeyword
  deriving DecidableEq

/-- A Python type annotation as classified by `_validate_parameter_type`:
the class `Expr`, the class `ScratchVar`, some other class, or an object
that is not a class at all. -/
inductive PyAnn where
  | exprAnn
  | scratchVarAnn
  | otherClassAnn
  | nonClassAnn
  deriving DecidableEq

/-- One parameter of the host-authored Python function, as observed through
`inspect.signature`. -/
structure PyParam where
  name : String
  kind : PyParamKind
  hasDefault : Bool

/-- The host-authored Python function handed to `SubroutineDefinition`:
its signature, its `__annotations__` (parameter annotations as an
association list, plus the `return` annotation), its `__name__`, and the
body builder invoked by `evaluateSubroutine` on the loaded arguments. -/
structure PyFunction where
  params : List PyParam
  anns : List (String × PyAnn)
  returnAnn : Option PyAnn
  name : String
  impl : List LoadedArg → PyVal

/-- The `implementation` argument of `SubroutineDefinition.__init__`:
either a callable Python function or some non-callable object
(subroutine.py:53-54 rejects the latter). -/
inductive PyImpl where
  | callable (f : PyFunction)
  | notCallable

/-- `SubroutineDefinition` (subroutine.py:17-202) after successful
construction: identity, parameter contract, expected argument classes, the
names of by-reference parameters, the implementation, the return type and
the recorded `input_types`.  The lazy `declaration` cache is threaded
explicitly through `getDeclaration` below. -/
structure SubroutineDefinition where
  id : Nat
  params : List String
  expectedArgTypes : List ArgKind
  byRefArgs : List String
  implementation : List LoadedArg → PyVal
  returnType : TealType
  inputTypes : Option (List TealType)
  name : String

/-- `SubroutineDefinition.argumentCount` (subroutine.py:168-169). -/
def SubroutineDefinition.argumentCount (s : SubroutineDefinition) : Nat :=
  s.params.length

/-- `SubroutineDefinition.arguments` (subroutine.py:171-172): the parameter
names in declaration order. -/
def SubroutineDefinition.arguments (s : SubroutineDefinition) : List String :=
  s.params

/-- `SubroutineDefinition._validate_parameter_type` (subroutine.py:112-157).
An absent annotation defaults to the by-value class `Expr`; a non-class or
disallowed annotation raises.  When the annotation is `Expr` and an
`input_type` was supplied, the source evaluates `ptype.type_of()` on the
class `Expr` itself, which raises a `TypeError` (`type_of` is an instance
method); the comparison with `input_type` is therefore never completed. -/
def validate_parameter_type (user_defined_anns : List (String × PyAnn))
    (parameter_name : String) (input_type : Option TealType) : Except TealErr ArgKind :=
  match user_defined_anns.lookup parameter_name with
  | Option.none => Except.ok ArgKind.exprKind
  | some PyAnn.nonClassAnn => Except.error (TealErr.annNotClass parameter_name)
  | some PyAnn.otherClassAnn => Except.error (TealErr.annDisallowed parameter_name)
  | some PyAnn.scratchVarAnn => Except.ok ArgKind.scratchKind
  | some PyAnn.exprAnn =>
    if input_type.isSome then Except.error (TealErr.typeOfOnClass parameter_name)
    else Except.ok ArgKind.exprKind

/-- The per-parameter loop of `SubroutineDefinition.__init__`
(subroutine.py:75-103): checks the parameter is positional and has no
default, then validates its annotation, accumulating `expected_arg_types`
and `by_ref_args`.  Lines 94-96 read `input_type = None` followed by
`if input_type:` — the guard is always false, so the supplied
`input_types[i]` entry is never consulted; the faithful translation passes
`Option.none` to `validate_parameter_type` unconditionally. -/
def checkParams (anns : List (String × PyAnn)) (input_types : Option (List TealType)) :
    List PyParam → Except TealErr (List ArgKind × List String)
  | [] => Except.ok ([], [])
  | p :: ps =>
    if p.kind ≠ PyParamKind.positionalOnly ∧ p.kind ≠ PyParamKind.positionalOrKeyword then
      Except.error (TealErr.badParamKind p.name)
    else if p.hasDefault then
      Except.error (TealErr.paramDefault p.name)
    else
      match validate_parameter_type anns p.name Option.none with
      | Except.error e => Except.error e
      | Except.ok k =>
        match checkParams anns input_types ps with
        | Except.error e => Except.error e
        | Except.ok (ks, refs) =>
          Except.ok (k :: ks, if k = ArgKind.scratchKind then p.name :: refs else refs)

/-- The return-annotation check of `SubroutineDefinition.__init__`
(subroutine.py:68-73): a `return` annotation other than `Expr` is
disallowed. -/
def hasDisallowedReturnAnn (f : PyFunction) : Bool :=
  match f.returnAnn with
  | some a => a ≠ PyAnn.exprAnn
  | Option.none => false

/-- `SubroutineDefinition.__init__` (subroutine.py:22-110): rejects a
non-callable implementation, an `input_types` list whose length differs
from the parameter count, a disallowed return annotation, and any offending
parameter (via `checkParams`); otherwise records the validated fields. -/
def mkSubroutineDefinition (nextId : Nat) (implementation : PyImpl) (returnType : TealType)
    (nameStr : Option String) (input_types : Option (List TealType)) :
    Except TealErr SubroutineDefinition :=
  match implementation with
  | PyImpl.notCallable => Except.error TealErr.notCallable
  | PyImpl.callable f =>
    if input_types.isSome ∧ (input_types.getD []).length ≠ f.params.length then
      Except.error (TealErr.inputTypesLengthMismatch (input_types.getD []).length f.params.length)
    else if hasDisallowedReturnAnn f then
      Except.error TealErr.badReturnAnn
    else
      match checkParams f.anns input_types f.params with
      | Except.error e => Except.error e
      | Except.ok (ks, refs) =>
        Except.ok
          { id := nextId
            params := f.params.map (fun p => p.name)
            expectedArgTypes := ks
            byRefArgs := refs
            implementation := f.impl
            returnType := returnType
            inputTypes := input_types
            name := nameStr.getD f.name }

/-- An argument held by a successfully constructed `SubroutineCall`:
`__init__` guarantees each is an `Expr` or a `ScratchVar`. -/
inductive Arg where
  | exprA (e : Expr)
  | scratchA (v : ScratchVar)

/-- The raw Python value an `Arg` stands for. -/
def argToPyVal : Arg → PyVal
  | Arg.exprA e => PyVal.exprV e
  | Arg.scratchA v => PyVal.scratchV v

/-- Classification of a raw argument as an `Arg` (meaningful only for
values `SubroutineCall.__init__` accepts). -/
def pyToArg : PyVal → Arg
  | PyVal.exprV e => Arg.exprA e
  | PyVal.scratchV v => Arg.scratchA v
  | PyVal.otherV => Arg.exprA (Expr.atom TealType.none)

/-- `SubroutineCall` (subroutine.py:232-297): a call-site AST node holding
the target definition and the validated arguments in order. -/
structure SubroutineCall where
  subroutine : SubroutineDefinition
  args : List Arg

/-- The validation loop of `SubroutineCall.__init__` (subroutine.py:240-257):
each argument must be an `Expr` or a `ScratchVar` (else line 243-248
raises naming its index), and its static type — `arg.type_of()` for an
`Expr`, `arg.type` for a `ScratchVar` (line 250) — must not be
`TealType.none` (else line 252-257 raises naming its index). -/
def checkCallArgs : Nat → List PyVal → Except TealErr (List Arg)
  | _, [] => Except.ok []
  | i, PyVal.otherV :: _ => Except.error (TealErr.badArgKind i)
  | i, PyVal.exprV e :: rest =>
    if e.type_of = TealType.none then Except.error (TealErr.noneTypeArg i)
    else
      match checkCallArgs (i + 1) rest with
      | Except.error err => Except.error err
      | Except.ok checked => Except.ok (Arg.exprA e :: checked)
  | i, PyVal.scratchV v :: rest =>
    if v.type = TealType.none then Except.error (TealErr.noneTypeArg i)
    else
      match checkCallArgs (i + 1) rest with
      | Except.error err => Except.error err
      | Except.ok checked => Except.ok (Arg.scratchA v :: checked)

/-- `SubroutineCall.__init__` (subroutine.py:233-257): validates the
arguments and, on success, yields the call node holding the definition and
exactly those arguments in order. -/
def mkSubroutineCall (subroutine : SubroutineDefinition) (args : List PyVal) :
    Except TealErr SubroutineCall :=
  match checkCallArgs 0 args with
  | Except.error e => Except.error e
  | Except.ok checked => Except.ok { subroutine := subroutine, args := checked }

/-- Python's `isinstance(arg, atype)` for the two classes recorded in
`expected_arg_types`: an `Expr` instance matches `Expr`, a `ScratchVar`
instance matches `ScratchVar`, anything else matches neither. -/
def isinstanceOfKind (arg : PyVal) (atype : ArgKind) : Bool :=
  match arg, atype with
  | PyVal.exprV _, ArgKind.exprKind => true
  | PyVal.scratchV _, ArgKind.scratchKind => true
  | _, _ => false

/-- The per-argument loop of `SubroutineDefinition.invoke`
(subroutine.py:182-189): `atype = self.expected_arg_types[i]` (an
`IndexError` if the list is exhausted) followed by the `isinstance`
check, raising at the first mismatching index. -/
def checkKinds : Nat → List PyVal → List ArgKind → Except TealErr Unit
  | _, [], _ => Except.ok ()
  | i, _ :: _, [] => Except.error (TealErr.indexError i)
  | i, arg :: args, atype :: atypes =>
    if isinstanceOfKind arg atype then checkKinds (i + 1) args atypes
    else Except.error (TealErr.kindMismatch i)

/-- `SubroutineDefinition.invoke` (subroutine.py:174-191): arity check,
then the per-argument kind check, then `SubroutineCall(self, args)` —
whose own validation may still raise. -/
def SubroutineDefinition.invoke (s : SubroutineDefinition) (args : List PyVal) :
    Except TealErr SubroutineCall :=
  if args.length ≠ s.argumentCount then
    Except.error (TealErr.arityMismatch s.argumentCount args.length)
  else
    match checkKinds 0 args s.expectedArgTypes with
    | Except.error e => Except.error e
    | Except.ok _ => mkSubroutineCall s args

/-- `SubroutineDeclaration` (subroutine.py:208-229): the immutable pair of
a definition and its compiled body. -/
structure SubroutineDeclaration where
  subroutine : SubroutineDefinition
  body : Expr

/-- Modelled from the spec (§6): `Op.callsub.min_version`, the minimum VM
version supporting the call instruction.  The claims depend only on the
comparison against the target version, not on the constant's value. -/
def callsubMinVersion : Nat := 4

/-- Modelled from the spec (§6): `verifyTealVersion` (external
`pyteal.errors`), the version gate that fails when the instruction's
minimum version exceeds the target version. -/
def verifyTealVersion (minVersion version : Nat) : Except TealErr Unit :=
  if minVersion > version then Except.error (TealErr.versionTooLow minVersion version)
  else Except.ok ()

/-- `handle_arg` inside `SubroutineCall.__teal__` (subroutine.py:277-278):
a `ScratchVar` argument contributes `arg.index()` — the expression pushing
its slot's index — and any other (`Expr`) argument contributes itself. -/
def handle_arg (arg : Arg) : Expr :=
  match arg with
  | Arg.scratchA v => Expr.slotIndex v.slotId
  | Arg.exprA e => e

/-- Modelled from the spec (§4.3, §6): `TealBlock.FromOp` (external
`pyteal.ir`) emits, in argument order, each argument expression's lowered
instructions, followed by the single given operation. -/
def tealBlockFromOp (op : Instr) (argExprs : List Expr) : List Instr :=
  (argExprs.map lowerExpr).flatten ++ [op]

/-- `SubroutineCall.__teal__` (subroutine.py:259-281): the version gate for
`Op.callsub`, then `TealBlock.FromOp` on the `callsub` operation (targeting
the call's definition) and the `handle_arg` image of the arguments. -/
def SubroutineCall.teal (c : SubroutineCall) (version : Nat) : Except TealErr (List Instr) :=
  match verifyTealVersion callsubMinVersion version with
  | Except.error e => Except.error e
  | Except.ok _ =>
    Except.ok (tealBlockFromOp (Instr.callsub c.subroutine.id) (c.args.map handle_arg))

/-- The scratch variable `evaluateSubroutine` allocates for one parameter
(`argumentVars` entries): a plain `ScratchVar` for a by-value parameter, a
`DynamicScratchVar` for a by-reference parameter, each owning a fresh
slot. -/
inductive ArgVar where
  | scratch (slotId : Nat)
  | dynamic (slotId : Nat)
  deriving DecidableEq

/-- The slot owned by an allocated argument variable. -/
def ArgVar.slotId : ArgVar → Nat
  | ArgVar.scratch s => s
  | ArgVar.dynamic s => s

/-- `var.slot.store()` (subroutine.py:440): the prologue store consuming a
caller-pushed stack value into the variable's slot — the same operation for
both variants. -/
def ArgVar.storeOp (v : ArgVar) : Expr :=
  Expr.slotStore v.slotId

/-- `var_n_loaded` inside `evaluateSubroutine` (subroutine.py:415-423):
a by-reference parameter gets a `DynamicScratchVar` whose handle itself is
exposed to the authored body; a by-value parameter gets a plain
`ScratchVar` whose `load()` is exposed. -/
def var_n_loaded (byRefArgs : List String) (param : String) (slotId : Nat) :
    ArgVar × LoadedArg :=
  if param ∈ byRefArgs then
    (ArgVar.dynamic slotId, LoadedArg.refHandle slotId)
  else
    (ArgVar.scratch slotId, LoadedArg.valueExpr (Expr.slotLoad slotId))

/-- `zip(*map(var_n_loaded, args))` (subroutine.py:426): allocate one fresh
slot per declared parameter, in declaration order, from the shared slot
counter. -/
def allocArgs (byRefArgs : List String) : List String → Nat → List (ArgVar × LoadedArg)
  | [], _ => []
  | p :: ps, slotCtr => var_n_loaded byRefArgs p slotCtr :: allocArgs byRefArgs ps (slotCtr + 1)

/-- `evaluateSubroutine` (subroutine.py:379-443), the calling-convention
algorithm.  The global scratch-slot counter and a count of host
implementation invocations are threaded explicitly; both advance even when
the result is rejected, since the variables are allocated and the
implementation invoked (line 429) before the `isinstance` check (line 431).
On success the declaration's body is
`Seq(argumentVars[::-1] stores ++ [subroutineBody])` (lines 438-443). -/
def evaluateSubroutine (s : SubroutineDefinition) (slotCtr calls : Nat) :
    Except TealErr SubroutineDeclaration × Nat × Nat :=
  match s.implementation ((allocArgs s.byRefArgs s.arguments slotCtr).map Prod.snd) with
  | PyVal.exprV subroutineBody =>
    (Except.ok
      { subroutine := s
        body := Expr.seq
          ((((allocArgs s.byRefArgs s.arguments slotCtr).map Prod.fst).reverse.map
              ArgVar.storeOp) ++ [subroutineBody]) },
      slotCtr + s.arguments.length, calls + 1)
  | _ => (Except.error TealErr.bodyNotExpr, slotCtr + s.arguments.length, calls + 1)

/-- `SubroutineDefinition.getDeclaration` (subroutine.py:159-163): the lazy
memoized compile.  The `declaration` cache field is passed in and the
updated cache returned; on a cache hit nothing runs, on a miss
`evaluateSubroutine` runs and its result is cached only on success. -/
def getDeclaration (s : SubroutineDefinition) (declaration : Option SubroutineDeclaration)
    (slotCtr calls : Nat) :
    Except TealErr SubroutineDeclaration × Option SubroutineDeclaration × Nat × Nat :=
  match declaration with
  | some d => (Except.ok d, some d, slotCtr, calls)
  | Option.none =>
    match evaluateSubroutine s slotCtr calls with
    | (Except.ok d, slotCtr2, calls2) => (Except.ok d, some d, slotCtr2, calls2)
    | (Except.error e, slotCtr2, calls2) => (Except.error e, Option.none, slotCtr2, calls2)

/-- Whether an `Except` result is a success (Python: no exception raised). -/
def isOkE {α : Type} : Except TealErr α → Bool
  | Except.ok _ => true
  | Except.error _ => false

/-- Exactly the arguments `SubroutineCall.__init__` accepts: an `Expr` or
`ScratchVar` whose static type is not `TealType.none`. -/
def validCallArg : PyVal → Bool
  | PyVal.exprV e => e.type_of != TealType.none
  | PyVal.scratchV v => v.type != TealType.none
  | PyVal.otherV => false

/-! ### Concrete instances

Small concrete subroutines used to witness the theorems below.  Each
`SubroutineDefinition` literal is shown (by `rfl`) to be exactly what
`mkSubroutineDefinition` constructs from the corresponding Python
function. -/

/-- A host implementation ignoring its loaded arguments and returning the
authored body `Int(7)`. -/
def threeParamImpl : List LoadedArg → PyVal := fun _ => PyVal.exprV (Expr.int 7)

/-- A Python function `def three(p0: Expr, p1: Expr, p2: Expr) -> Expr`. -/
def threeParamFn : PyFunction :=
  { params :=
      [ { name := "p0", kind := PyParamKind.positionalOrKeyword, hasDefault := false }
      , { name := "p1", kind := PyParamKind.positionalOrKeyword, hasDefault := false }
      , { name := "p2", kind := PyParamKind.positionalOrKeyword, hasDefault := false } ]
    anns :=
      [("p0", PyAnn.exprAnn), ("p1", PyAnn.exprAnn), ("p2", PyAnn.exprAnn)]
    returnAnn := some PyAnn.exprAnn
    name := "three"
    impl := threeParamImpl }

/-- The definition `mkSubroutineDefinition` builds from `threeParamFn`. -/
def threeParamDef : SubroutineDefinition :=
  { id := 0
    params := ["p0", "p1", "p2"]
    expectedArgTypes := [ArgKind.exprKind, ArgKind.exprKind, ArgKind.exprKind]
    byRefArgs := []
    implementation := threeParamImpl
    returnType := TealType.uint64
    inputTypes := Option.none
    name := "three" }

theorem threeParamDef_constructed :
    mkSubroutineDefinition 0 (PyImpl.callable threeParamFn) TealType.uint64 Option.none
      Option.none = Except.ok threeParamDef := rfl

/-- A host implementation for a zero-parameter subroutine, returning the
authored body `Int(1)`. -/
def zeroParamImpl : List LoadedArg → PyVal := fun _ => PyVal.exprV (Expr.int 1)

/-- A Python function `def zero() -> Expr`. -/
def zeroParamFn : PyFunction :=
  { params := []
    anns := []
    returnAnn := some PyAnn.exprAnn
    name := "zero"
    impl := zeroParamImpl }

/-- The definition `mkSubroutineDefinition` builds from `zeroParamFn`. -/
def zeroParamDef : SubroutineDefinition :=
  { id := 1
    params := []
    expectedArgTypes := []
    byRefArgs := []
    implementation := zeroParamImpl
    returnType := TealType.uint64
    inputTypes := Option.none
    name := "zero" }

theorem zeroParamDef_constructed :
    mkSubroutineDefinition 1 (PyImpl.callable zeroParamFn) TealType.uint64 Option.none
      Option.none = Except.ok zeroParamDef := rfl

/-- A Python function `def g(x: Expr) -> Expr`. -/
def oneExprParamFn : PyFunction :=
  { params := [{ name := "x", kind := PyParamKind.positionalOrKeyword, hasDefault := false }]
    anns := [("x", PyAnn.exprAnn)]
    returnAnn := some PyAnn.exprAnn
    name := "g"
    impl := zeroParamImpl }

/-- The definition `mkSubroutineDefinition` builds from `oneExprParamFn`. -/
def oneExprParamDef : SubroutineDefinition :=
  { id := 2
    params := ["x"]
    expectedArgTypes := [ArgKind.exprKind]
    byRefArgs := []
    implementation := zeroParamImpl
    returnType := TealType.uint64
    inputTypes := Option.none
    name := "g" }

theorem oneExprParamDef_constructed :
    mkSubroutineDefinition 2 (PyImpl.callable oneExprParamFn) TealType.uint64 Option.none
      Option.none = Except.ok oneExprParamDef := rfl

/-- A Python function `def h(x: ScratchVar) -> Expr` (a by-reference
parameter). -/
def oneRefParamFn : PyFunction :=
  { params := [{ name := "x", kind := PyParamKind.positionalOrKeyword, hasDefault := false }]
    anns := [("x", PyAnn.scratchVarAnn)]
    returnAnn := some PyAnn.exprAnn
    name := "h"
    impl := zeroParamImpl }

/-- The definition `mkSubroutineDefinition` builds from `oneRefParamFn`. -/
def oneRefParamDef : SubroutineDefinition :=
  { id := 3
    params := ["x"]
    expectedArgTypes := [ArgKind.scratchKind]
    byRefArgs := ["x"]
    implementation := zeroParamImpl
    returnType := TealType.uint64
    inputTypes := Option.none
    name := "h" }

theorem oneRefParamDef_constructed :
    mkSubroutineDefinition 3 (PyImpl.callable oneRefParamFn) TealType.uint64 Option.none
      Option.none = Except.ok oneRefParamDef := rfl

/-- A concrete call of `threeParamDef` with a value argument `Int(5)` and a
reference argument aliasing slot 7 (as `SubroutineCall.__init__` would
accept it). -/
def sampleCall : SubroutineCall :=
  { subroutine := threeParamDef
    args := [Arg.exprA (Expr.int 5), Arg.scratchA { type := TealType.uint64, slotId := 7 }] }

theorem sampleCall_constructed :
    mkSubroutineCall threeParamDef
      [PyVal.exprV (Expr.int 5), PyVal.scratchV { type := TealType.uint64, slotId := 7 }]
      = Except.ok sampleCall := rfl

/-! ### Helper lemmas -/

/-- `evaluateSubroutine` invokes the host implementation exactly once: the
invocation counter advances by one on every run, success or failure. -/
theorem evaluateSubroutine_calls (s : SubroutineDefinition) (slotCtr calls : Nat) :
    (evaluateSubroutine s slotCtr calls).2.2 = calls + 1 := by
  unfold evaluateSubroutine
  split <;> rfl

/-- The prologue stores of the variables allocated for a parameter list:
one store per parameter, for the consecutive slots drawn from the counter,
in declaration order (before the reversal in `evaluateSubroutine`). -/
theorem allocArgs_stores (byRefArgs ps : List String) (slotCtr : Nat) :
    ((allocArgs byRefArgs ps slotCtr).map Prod.fst).map ArgVar.storeOp =
      (List.range' slotCtr ps.length).map Expr.slotStore := by
  induction ps generalizing slotCtr with
  | nil => rfl
  | cons p ps ih =>
    by_cases h : p ∈ byRefArgs <;>
      simp [allocArgs, var_n_loaded, h, ArgVar.storeOp, ArgVar.slotId, List.range'_succ, ih]

/-- The kind-check loop rejects at the first mismatching index: if every
argument before position `i` passes its `isinstance` check and the argument
at `i` fails it, the loop raises naming `base + i`. -/
theorem checkKinds_error_at (i : Nat) (base : Nat) (args : List PyVal) (atypes : List ArgKind)
    (hprev : ∀ j, j < i → ∀ a k, args.get? j = some a → atypes.get? j = some k →
      isinstanceOfKind a k = true)
    (hmis : ∃ a k, args.get? i = some a ∧ atypes.get? i = some k ∧
      isinstanceOfKind a k = false) :
    checkKinds base args atypes = Except.error (TealErr.kindMismatch (base + i)) := by
  induction i generalizing base args atypes with
  | zero =>
    obtain ⟨a, k, ha, hk, hf⟩ := hmis
    match args, atypes, ha, hk with
    | a :: args, k :: atypes, rfl, rfl =>
      simp [checkKinds, hf]
  | succ i ih =>
    obtain ⟨a, k, ha, hk, hf⟩ := hmis
    match args, atypes with
    | a0 :: args, k0 :: atypes =>
      have h0 : isinstanceOfKind a0 k0 = true := hprev 0 (Nat.succ_pos i) a0 k0 rfl rfl
      have htail : checkKinds (base + 1) args atypes =
          Except.error (TealErr.kindMismatch (base + 1 + i)) := by
        apply ih
        · intro j hj a1 k1 ha1 hk1
          exact hprev (j + 1) (Nat.succ_lt_succ hj) a1 k1 ha1 hk1
        · exact ⟨a, k, ha, hk, hf⟩
      calc checkKinds base (a0 :: args) (k0 :: atypes)
          = checkKinds (base + 1) args atypes := by simp [checkKinds, h0]
        _ = Except.error (TealErr.kindMismatch (base + 1 + i)) := htail
        _ = Except.error (TealErr.kindMismatch (base + (i + 1))) := by
            rw [Nat.add_assoc, Nat.add_comm 1 i]

/-- A kind check that succeeds saw only `Expr` and `ScratchVar` instances:
no other Python object matches either class. -/
theorem checkKinds_ok_not_other (base : Nat) (args : List PyVal) (atypes : List ArgKind)
    (h : checkKinds base args atypes = Except.ok ()) :
    ∀ a ∈ args, a ≠ PyVal.otherV := by
  induction args generalizing base atypes with
  | nil => intro a ha; cases ha
  | cons a0 args ih =>
    intro a ha
    match atypes with
    | [] => simp [checkKinds] at h
    | k0 :: atypes =>
      by_cases h0 : isinstanceOfKind a0 k0 = true
      · rw [List.mem_cons] at ha
        rcases ha with rfl | ha
        · intro hcon
          subst hcon
          cases k0 <;> simp [isinstanceOfKind] at h0
        · refine ih (base + 1) atypes ?_ a ha
          simpa [checkKinds, h0] using h
      · simp [checkKinds, h0] at h

/-- On arguments `SubroutineCall.__init__` accepts, the validation loop
succeeds and records exactly the given arguments, classified, in order. -/
theorem checkCallArgs_ok_of_valid (args : List PyVal) (i : Nat)
    (h : args.all validCallArg = true) :
    checkCallArgs i args = Except.ok (args.map pyToArg) := by
  induction args generalizing i with
  | nil => rfl
  | cons a args ih =>
    rw [List.all_cons, Bool.and_eq_true] at h
    obtain ⟨ha, hargs⟩ := h
    cases a with
    | exprV e =>
      have hne : ¬e.type_of = TealType.none := by
        simpa [validCallArg] using ha
      simp [checkCallArgs, hne, ih (i + 1) hargs, pyToArg]
    | scratchV v =>
      have hne : ¬v.type = TealType.none := by
        simpa [validCallArg] using ha
      simp [checkCallArgs, hne, ih (i + 1) hargs, pyToArg]
    | otherV => simp [validCallArg] at ha

/-- The validation loop of `SubroutineCall.__init__` succeeds exactly on
argument lists whose members are all acceptable. -/
theorem checkCallArgs_isOk (args : List PyVal) (i : Nat) :
    isOkE (checkCallArgs i args) = args.all validCallArg := by
  induction args generalizing i with
  | nil => rfl
  | cons a args ih =>
    cases a with
    | exprV e =>
      by_cases hne : e.type_of = TealType.none
      · simp [checkCallArgs, hne, isOkE, validCallArg]
      · have hmatch : isOkE (checkCallArgs i (PyVal.exprV e :: args)) =
            isOkE (checkCallArgs (i + 1) args) := by
          simp only [checkCallArgs, if_neg hne]
          cases checkCallArgs (i + 1) args <;> rfl
        have hvalid : validCallArg (PyVal.exprV e) = true := by
          simp only [validCallArg, bne_iff_ne, ne_eq]
          exact hne
        rw [hmatch, ih (i + 1), List.all_cons, hvalid, Bool.true_and]
    | scratchV v =>
      by_cases hne : v.type = TealType.none
      · simp [checkCallArgs, hne, isOkE, validCallArg]
      · have hmatch : isOkE (checkCallArgs i (PyVal.scratchV v :: args)) =
            isOkE (checkCallArgs (i + 1) args) := by
          simp only [checkCallArgs, if_neg hne]
          cases checkCallArgs (i + 1) args <;> rfl
        have hvalid : validCallArg (PyVal.scratchV v) = true := by
          simp only [validCallArg, bne_iff_ne, ne_eq]
          exact hne
        rw [hmatch, ih (i + 1), List.all_cons, hvalid, Bool.true_and]
    | otherV => simp [checkCallArgs, isOkE, validCallArg]

/-- Arguments that pass the `invoke` kind check and are not statically
typed `TealType.none` are exactly those `SubroutineCall.__init__`
accepts. -/
theorem validCallArg_of_checked (args : List PyVal) (atypes : List ArgKind) (base : Nat)
    (hk : checkKinds base args atypes = Except.ok ())
    (hn : ∀ a ∈ args, a.staticType ≠ some TealType.none) :
    args.all validCallArg = true := by
  rw [List.all_eq_true]
  intro a ha
  have hno : a ≠ PyVal.otherV := checkKinds_ok_not_other base args atypes hk a ha
  have hns := hn a ha
  cases a with
  | exprV e =>
    simp only [PyVal.staticType, Ne, Option.some.injEq] at hns
    simpa [validCallArg] using hns
  | scratchV v =>
    simp only [PyVal.staticType, Ne, Option.some.injEq] at hns
    simpa [validCallArg] using hns
  | otherV => exact absurd rfl hno

/-! ### Claim theorems -/

/-- C1: For every subroutine definition with parameters `p0..p(n-1)` whose
host implementation yields an expression body, the declaration body built
by the calling-convention algorithm `evaluateSubroutine` begins with a
prologue of exactly `n` store operations, one per allocated scratch slot
(parameter `pi` owns slot `slotCtr + i`), in reverse declaration order —
the slot for `p(n-1)` is stored first, the slot for `p0` last — followed by
the authored body. -/
theorem c1_prologue_reverse_order (s : SubroutineDefinition) (slotCtr calls : Nat) (body : Expr)
    (h : s.implementation ((allocArgs s.byRefArgs s.arguments slotCtr).map Prod.snd) =
      PyVal.exprV body) :
    (evaluateSubroutine s slotCtr calls).1 =
      Except.ok
        { subroutine := s
          body := Expr.seq
            (((List.range' slotCtr s.params.length).reverse.map Expr.slotStore) ++ [body]) } := by
  unfold evaluateSubroutine
  rw [h]
  have hs : ((allocArgs s.byRefArgs s.arguments slotCtr).map Prod.fst).reverse.map
      ArgVar.storeOp = (List.range' slotCtr s.params.length).reverse.map Expr.slotStore := by
    rw [List.map_reverse, allocArgs_stores, ← List.map_reverse]
    rfl
  dsimp only
  rw [hs]

/-- C1 witness: the three-parameter subroutine `(p0, p1, p2)`, compiled
with the slot counter at 0, gets the prologue `store 2; store 1; store 0` —
p2's slot first, p0's last — before the authored body `Int(7)`. -/
theorem c1_prologue_reverse_order_witness :
    (evaluateSubroutine threeParamDef 0 0).1 =
      Except.ok
        { subroutine := threeParamDef
          body := Expr.seq
            [Expr.slotStore 2, Expr.slotStore 1, Expr.slotStore 0, Expr.int 7] } :=
  c1_prologue_reverse_order threeParamDef 0 0 (Expr.int 7) rfl

/-- C2: `getDeclaration` runs the calling-convention algorithm at most
once.  The first successful call (empty cache) invokes the host
implementation exactly once — the invocation counter moves from `calls` to
`calls + 1` — and caches the resulting declaration; every subsequent call
(populated cache) returns the identical cached object with every counter
untouched, so the implementation is not invoked again. -/
theorem c2_getDeclaration_memoized (s : SubroutineDefinition) (slotCtr calls : Nat)
    (d : SubroutineDeclaration) (slotCtr2 calls2 : Nat)
    (h : evaluateSubroutine s slotCtr calls = (Except.ok d, slotCtr2, calls2)) :
    getDeclaration s Option.none slotCtr calls = (Except.ok d, some d, slotCtr2, calls + 1) ∧
    ∀ c k, getDeclaration s (some d) c k = (Except.ok d, some d, c, k) := by
  refine ⟨?_, fun c k => rfl⟩
  have hc : calls2 = calls + 1 := by
    have h2 := evaluateSubroutine_calls s slotCtr calls
    rw [h] at h2
    exact h2
  subst hc
  unfold getDeclaration
  rw [h]

/-- C2 witness: the zero-parameter subroutine, first compiled with both
counters at 0 (one implementation invocation), then requested again from
the populated cache (no further invocation, identical object). -/
theorem c2_getDeclaration_memoized_witness :
    getDeclaration zeroParamDef Option.none 0 0 =
      (Except.ok { subroutine := zeroParamDef, body := Expr.seq [Expr.int 1] },
        some { subroutine := zeroParamDef, body := Expr.seq [Expr.int 1] }, 0, 1) ∧
    ∀ c k, getDeclaration zeroParamDef
        (some { subroutine := zeroParamDef, body := Expr.seq [Expr.int 1] }) c k =
      (Except.ok { subroutine := zeroParamDef, body := Expr.seq [Expr.int 1] },
        some { subroutine := zeroParamDef, body := Expr.seq [Expr.int 1] }, c, k) :=
  c2_getDeclaration_memoized zeroParamDef 0 0
    { subroutine := zeroParamDef, body := Expr.seq [Expr.int 1] } 0 1 rfl

/-- C5 counterexample: for the concrete zero-parameter subroutine with
authored body `Int(1)`, the compiled declaration's body is
`Seq([Int(1)])`, which is not the authored body `Int(1)` itself — the
claim's "equals the authored body verbatim" fails at object level. -/
theorem c5_counterexample :
    (evaluateSubroutine zeroParamDef 0 0).1 =
      Except.ok { subroutine := zeroParamDef, body := Expr.seq [Expr.int 1] } ∧
    Expr.seq [Expr.int 1] ≠ Expr.int 1 :=
  ⟨rfl, fun hcon => Expr.noConfusion hcon⟩

/-- C5 (amended): for every zero-parameter subroutine definition whose
implementation yields an expression body, `evaluateSubroutine` allocates no
scratch slots (the slot counter is returned unchanged) and emits no
prologue store: the declaration body is the authored body wrapped as a
one-element sequence, which lowers to exactly the authored body's
instructions. -/
theorem c5_zero_params_no_prologue (s : SubroutineDefinition) (slotCtr calls : Nat) (body : Expr)
    (hp : s.params = [])
    (h : s.implementation [] = PyVal.exprV body) :
    evaluateSubroutine s slotCtr calls =
      (Except.ok { subroutine := s, body := Expr.seq [body] }, slotCtr, calls + 1) ∧
    lowerExpr (Expr.seq [body]) = lowerExpr body := by
  constructor
  · have hargs : s.arguments = [] := hp
    unfold evaluateSubroutine
    rw [hargs]
    simp only [allocArgs, List.map]
    rw [h]
    rfl
  · simp [lowerExpr, lowerSeq]

/-- C5 witness: the concrete zero-parameter subroutine compiled with both
counters at 0: slot counter unchanged, body `Seq([Int(1)])`, lowering equal
to the authored body's. -/
theorem c5_zero_params_no_prologue_witness :
    evaluateSubroutine zeroParamDef 0 0 =
      (Except.ok { subroutine := zeroParamDef, body := Expr.seq [Expr.int 1] }, 0, 1) ∧
    lowerExpr (Expr.seq [Expr.int 1]) = lowerExpr (Expr.int 1) :=
  c5_zero_params_no_prologue zeroParamDef 0 0 (Expr.int 1) rfl rfl

/-- C3: for every subroutine call lowered against a VM version at least the
call instruction's minimum, `__teal__` emits, in argument order, one push
per argument — a `ScratchVar` (reference) argument contributes its slot's
index and never the aliased value, an `Expr` (value) argument contributes
its own lowered value — followed by exactly one `callsub` instruction
targeting the call's definition. -/
theorem c3_call_lowering (c : SubroutineCall) (version : Nat)
    (h : callsubMinVersion ≤ version) :
    c.teal version =
      Except.ok ((c.args.map fun a => lowerExpr (handle_arg a)).flatten
        ++ [Instr.callsub c.subroutine.id]) ∧
    (∀ v : ScratchVar, lowerExpr (handle_arg (Arg.scratchA v)) = [Instr.pushInt v.slotId]) ∧
    (∀ e : Expr, handle_arg (Arg.exprA e) = e) := by
  refine ⟨?_, fun v => rfl, fun e => rfl⟩
  have hv : verifyTealVersion callsubMinVersion version = Except.ok () := by
    unfold verifyTealVersion
    rw [if_neg (Nat.not_lt.mpr h)]
  unfold SubroutineCall.teal
  rw [hv]
  simp only [tealBlockFromOp, List.map_map]
  rfl

/-- C3 witness: the concrete call of the three-parameter subroutine with
the value argument `Int(5)` and a reference argument aliasing slot 7, at
version 4: push the literal 5, push the slot index 7, then one `callsub`
at the target definition. -/
theorem c3_call_lowering_witness :
    sampleCall.teal 4 =
      Except.ok [Instr.pushInt 5, Instr.pushInt 7, Instr.callsub 0] :=
  (c3_call_lowering sampleCall 4 (Nat.le_refl 4)).1

/-- C9: for every subroutine call, lowering against a target VM version
below the call instruction's minimum fails with the version error and
yields no instruction list at all — no argument push and no call
instruction. -/
theorem c9_version_gate (c : SubroutineCall) (version : Nat)
    (h : version < callsubMinVersion) :
    c.teal version = Except.error (TealErr.versionTooLow callsubMinVersion version) ∧
    ∀ instrs : List Instr, c.teal version ≠ Except.ok instrs := by
  have ht : c.teal version =
      Except.error (TealErr.versionTooLow callsubMinVersion version) := by
    unfold SubroutineCall.teal verifyTealVersion
    rw [if_pos h]
  exact ⟨ht, fun instrs hok => by rw [ht] at hok; exact Except.noConfusion hok⟩

/-- C9 witness: the concrete call at version 3 (below the minimum 4) fails
with the version error. -/
theorem c9_version_gate_witness :
    sampleCall.teal 3 = Except.error (TealErr.versionTooLow 4 3) :=
  (c9_version_gate sampleCall 3 (by decide)).1

/-- C4 (code-bug evidence): construction never rejects a contradiction
between an `Expr`-annotated parameter and the supplied `input_types`
entry.  For the one-parameter function `g(x: Expr)` and every supplied
declared input type, `SubroutineDefinition.__init__` succeeds:
subroutine.py:94-96 set `input_type = None` and immediately guard on it,
so the contradiction check at lines 144-155 never runs. -/
theorem c4_input_type_contradiction_ignored (t : TealType) :
    isOkE (mkSubroutineDefinition 2 (PyImpl.callable oneExprParamFn) TealType.uint64
      Option.none (some [t])) = true := rfl

/-- C6 counterexample: for the concrete one-value-parameter subroutine and
the single argument `Expr.atom TealType.none`, the argument count matches
and the kind check passes (the argument is an `Expr` instance), yet
`invoke` raises — `SubroutineCall.__init__` rejects the argument as
statically producing no value — so the claim's "invoke returns a
SubroutineCall" fails. -/
theorem c6_counterexample :
    [PyVal.exprV (Expr.atom TealType.none)].length = oneExprParamDef.argumentCount ∧
    checkKinds 0 [PyVal.exprV (Expr.atom TealType.none)] oneExprParamDef.expectedArgTypes =
      Except.ok () ∧
    oneExprParamDef.invoke [PyVal.exprV (Expr.atom TealType.none)] =
      Except.error (TealErr.noneTypeArg 0) :=
  ⟨rfl, rfl, rfl⟩

/-- C6 (amended): `invoke` rejects every arity mismatch — for any argument
count differing from the parameter count it raises the arity error and no
call node is constructed.  When the counts match, every argument passes the
kind check and, additionally, no argument is statically typed
`TealType.none` (otherwise `SubroutineCall.__init__` itself raises),
`invoke` returns a `SubroutineCall` holding that definition and exactly
those arguments in order. -/
theorem c6_invoke_arity (s : SubroutineDefinition) (args : List PyVal) :
    (args.length ≠ s.argumentCount →
      s.invoke args = Except.error (TealErr.arityMismatch s.argumentCount args.length) ∧
      ∀ c : SubroutineCall, s.invoke args ≠ Except.ok c) ∧
    (args.length = s.argumentCount →
      checkKinds 0 args s.expectedArgTypes = Except.ok () →
      (∀ a ∈ args, a.staticType ≠ some TealType.none) →
      s.invoke args = Except.ok { subroutine := s, args := args.map pyToArg } ∧
      (args.map pyToArg).map argToPyVal = args) := by
  constructor
  · intro hne
    have herr : s.invoke args =
        Except.error (TealErr.arityMismatch s.argumentCount args.length) := by
      unfold SubroutineDefinition.invoke
      rw [if_pos hne]
    exact ⟨herr, fun c hok => by rw [herr] at hok; exact Except.noConfusion hok⟩
  · intro hlen hkinds hnone
    have hvalid : args.all validCallArg = true :=
      validCallArg_of_checked args s.expectedArgTypes 0 hkinds hnone
    constructor
    · unfold SubroutineDefinition.invoke
      rw [if_neg (fun hne => hne hlen), hkinds]
      unfold mkSubroutineCall
      rw [checkCallArgs_ok_of_valid args 0 hvalid]
    · rw [List.map_map]
      have hid : ∀ a ∈ args, (argToPyVal ∘ pyToArg) a = id a := by
        intro a ha
        have hno : a ≠ PyVal.otherV :=
          checkKinds_ok_not_other 0 args s.expectedArgTypes hkinds a ha
        cases a with
        | exprV e => rfl
        | scratchV v => rfl
        | otherV => exact absurd rfl hno
      rw [List.map_congr_left hid, List.map_id]

/-- C6 witness: the one-parameter subroutine rejects an empty argument
list (arity 0 ≠ 1) and, given exactly one well-kinded value argument,
returns the call node holding it. -/
theorem c6_invoke_arity_witness :
    oneExprParamDef.invoke [] = Except.error (TealErr.arityMismatch 1 0) ∧
    oneExprParamDef.invoke [PyVal.exprV (Expr.int 5)] =
      Except.ok { subroutine := oneExprParamDef, args := [Arg.exprA (Expr.int 5)] } := by
  constructor
  · exact ((c6_invoke_arity oneExprParamDef []).1 (by decide)).1
  · refine ((c6_invoke_arity oneExprParamDef [PyVal.exprV (Expr.int 5)]).2 rfl rfl ?_).1
    intro a ha
    rw [List.mem_singleton] at ha
    subst ha
    intro hcon
    exact TealType.noConfusion (Option.some.inj hcon)

/-- C7: `invoke` rejects, raising an error naming index `i`, the argument
at the first kind-mismatching position `i`: a by-reference
(`ScratchVar`-declared) parameter rejects a value-expression (`Expr`)
argument, and a by-value (`Expr`-declared) parameter rejects a
reference-variable (`ScratchVar`) argument. -/
theorem c7_invoke_kind_mismatch (s : SubroutineDefinition) (args : List PyVal) (i : Nat)
    (hlen : args.length = s.argumentCount)
    (hprev : ∀ j, j < i → ∀ a k, args.get? j = some a →
      s.expectedArgTypes.get? j = some k → isinstanceOfKind a k = true)
    (hclash :
      (∃ e, args.get? i = some (PyVal.exprV e) ∧
        s.expectedArgTypes.get? i = some ArgKind.scratchKind) ∨
      (∃ v, args.get? i = some (PyVal.scratchV v) ∧
        s.expectedArgTypes.get? i = some ArgKind.exprKind)) :
    s.invoke args = Except.error (TealErr.kindMismatch i) := by
  have hmis : ∃ a k, args.get? i = some a ∧ s.expectedArgTypes.get? i = some k ∧
      isinstanceOfKind a k = false := by
    rcases hclash with ⟨e, ha, hk⟩ | ⟨v, ha, hk⟩
    · exact ⟨PyVal.exprV e, ArgKind.scratchKind, ha, hk, rfl⟩
    · exact ⟨PyVal.scratchV v, ArgKind.exprKind, ha, hk, rfl⟩
  have hck := checkKinds_error_at i 0 args s.expectedArgTypes hprev hmis
  rw [Nat.zero_add] at hck
  unfold SubroutineDefinition.invoke
  rw [if_neg (fun hne => hne hlen), hck]

/-- C7 witness: the by-reference one-parameter subroutine rejects the
value expression `Int(5)` at index 0 with an error naming that index. -/
theorem c7_invoke_kind_mismatch_witness :
    oneRefParamDef.invoke [PyVal.exprV (Expr.int 5)] =
      Except.error (TealErr.kindMismatch 0) :=
  c7_invoke_kind_mismatch oneRefParamDef [PyVal.exprV (Expr.int 5)] 0 rfl
    (fun j hj => absurd hj (Nat.not_lt_zero j))
    (Or.inl ⟨Expr.int 5, rfl, rfl⟩)

/-- C8: `SubroutineCall` construction succeeds exactly when every argument
is a value expression (`Expr`) or a reference-variable handle
(`ScratchVar`) whose static type — `type_of()` for an `Expr`, the declared
type for a `ScratchVar` — is not `TealType.none`: any other Python object,
and any argument statically producing no value, raises. -/
theorem c8_call_construction_validation (s : SubroutineDefinition) (args : List PyVal) :
    isOkE (mkSubroutineCall s args) = args.all validCallArg := by
  have hmk : isOkE (mkSubroutineCall s args) = isOkE (checkCallArgs 0 args) := by
    unfold mkSubroutineCall
    cases checkCallArgs 0 args <;> rfl
  rw [hmk, checkCallArgs_isOk]

/-- C10: constructing a `SubroutineCall` directly (not through `invoke`)
performs no arity check and no parameter-kind check against the
definition: for every definition and every argument list of `Expr`s and
`ScratchVar`s not statically typed `TealType.none`, construction succeeds
and records exactly those arguments — even when the list's length differs
from the definition's parameter count or an argument's kind mismatches its
parameter's declared kind.  Those checks live only in `invoke`. -/
theorem c10_direct_construction_unchecked (s : SubroutineDefinition) (args : List PyVal)
    (h : args.all validCallArg = true) :
    mkSubroutineCall s args = Except.ok { subroutine := s, args := args.map pyToArg } := by
  unfold mkSubroutineCall
  rw [checkCallArgs_ok_of_valid args 0 h]

/-- C10 witness: the one-value-parameter subroutine accepts, via direct
construction, two arguments the first of which is a reference variable —
an arity mismatch (2 ≠ 1) and a kind mismatch `invoke` would reject. -/
theorem c10_direct_construction_unchecked_witness :
    mkSubroutineCall oneExprParamDef
        [PyVal.scratchV { type := TealType.uint64, slotId := 5 }, PyVal.exprV (Expr.int 3)] =
      Except.ok
        { subroutine := oneExprParamDef
          args := [Arg.scratchA { type := TealType.uint64, slotId := 5 },
            Arg.exprA (Expr.int 3)] } ∧
    [PyVal.scratchV { type := TealType.uint64, slotId := 5 },
        PyVal.exprV (Expr.int 3)].length ≠ oneExprParamDef.argumentCount ∧
    isinstanceOfKind (PyVal.scratchV { type := TealType.uint64, slotId := 5 })
      ArgKind.exprKind = false :=
  ⟨c10_direct_construction_unchecked oneExprParamDef _ (by decide), by decide, rfl⟩

end PyTeal
